import Mathlib

/-
Shallow embedding of the gameplay session progression and scoring engine of
project_iris_backend. The embedded functions follow src/gameplay/views.py,
the module wired to the HTTP routes in src/gameplay/urls.py
(src/gameplay/services.py is an unreferenced variant, imported nowhere).
Django model defaults come from src/gameplay/models.py. Timestamps
(started_at, ended_at, last_activity_at) and the StageRun / QuestionRun audit
rows are omitted: no verified property mentions them; the Answer ledger keeps
the question_key that the duplicate check of views.py line 199 joins through.
Nat indices model PositiveIntegerField (always non-negative), so the dead
negative-index guards of get_stage_and_question and advance_pointer vanish.
-/

namespace Gameplay

/-- Scored option of a question: a text label and an optional score field
(the JSON key "score" may be absent; views.py line 231 reads it with
default 0). -/
structure Opt where
  text : String
  score : Option Int
deriving DecidableEq, Repr

/-- Question of a scenario stage: id, prompt text, ordered options. -/
structure Question where
  id : String
  text : String
  options : List Opt
deriving DecidableEq, Repr

/-- Stage of a scenario: name, time limit, ordered questions. -/
structure Stage where
  stage : String
  time_limit_sec : Int
  questions : List Question
deriving DecidableEq, Repr

/-- Scenario definition: topic and ordered stages. -/
structure Scenario where
  topic : String
  stages : List Stage
deriving DecidableEq, Repr

/-- Session status values of GameSession.STATUS_CHOICES in models.py. -/
inductive Status where
  | created
  | in_progress
  | completed
  | failed
  | abandoned
deriving DecidableEq, Repr

/-- GameSession record (models.py lines 6-48), restricted to the fields the
engine reads or writes. -/
structure Session where
  topic : String
  current_stage_index : Nat
  current_question_index : Nat
  status : Status
  ended_reason : Option String
  total_score : Int
  wrong_count : Int
  wrong_limit : Int
  advice_summary : String
deriving DecidableEq, Repr

/-- Answer ledger record (models.py lines 110-127) for one session: the
question_key reached through question_run in the duplicate check of
views.py line 199, the selected text, the scored delta and the correctness
flag. -/
structure AnswerRec where
  question_key : String
  selected_text : String
  score_delta : Int
  is_correct : Bool
deriving DecidableEq, Repr

/-- State of one session together with its persisted Answer records. -/
structure GState where
  session : Session
  answers : List AnswerRec
deriving DecidableEq, Repr

/-- Position Resolver, views.py get_stage_and_question lines 29-42: returns
the pair of the stage and the question at the position, each side none when
its index is out of range. -/
def get_stage_and_question (scn : Scenario) (stage_index question_index : Nat) :
    Option Stage × Option Question :=
  match scn.stages[stage_index]? with
  | none => (none, none)
  | some stage_obj =>
    match stage_obj.questions[question_index]? with
    | none => (some stage_obj, none)
    | some q => (some stage_obj, some q)

/-- Pointer Advancer, views.py advance_pointer lines 53-66: increment the
question index; when the stage index is in range and the incremented index
reaches the question count of that stage, move to the next stage at
question 0. -/
def advance_pointer (scn : Scenario) (session : Session) : Session :=
  match scn.stages[session.current_stage_index]? with
  | some stage_obj =>
    if stage_obj.questions.length ≤ session.current_question_index + 1 then
      { session with current_stage_index := session.current_stage_index + 1,
                     current_question_index := 0 }
    else
      { session with current_question_index := session.current_question_index + 1 }
  | none =>
      { session with current_question_index := session.current_question_index + 1 }

/-- Answer Scorer, the loop of views.py lines 228-232: the first option whose
text equals the selected text wins; an absent score field counts 0; no match
gives none. -/
def scoreSelected (options : List Opt) (selected_text : String) : Option Int :=
  match options with
  | [] => none
  | opt :: rest =>
    if opt.text = selected_text then some (opt.score.getD 0)
    else scoreSelected rest selected_text

/-- Score application of views.py lines 272-276: add the delta to
total_score and increment wrong_count exactly when the delta is not
positive. -/
def applyScore (session : Session) (score_delta : Int) : Session :=
  { session with
      total_score := session.total_score + score_delta,
      wrong_count :=
        if score_delta > 0 then session.wrong_count else session.wrong_count + 1 }

/-- Default advice text of views.py lines 286-288. -/
def defaultAdvice : String :=
  "Too many incorrect answers. Review basics: backups, isolation, reporting, containment, recovery."

/-- Failure transition of views.py lines 281-289: status failed, reason
too_many_wrongs, and a default advice_summary when it was empty. -/
def failSession (session : Session) : Session :=
  { session with
      status := Status.failed,
      ended_reason := some "too_many_wrongs",
      advice_summary :=
        if session.advice_summary = "" then defaultAdvice else session.advice_summary }

/-- Completion transition used by views.py lines 143-147, 212-216 and
302-312: status completed, reason finished. -/
def finishSession (session : Session) : Session :=
  { session with status := Status.completed, ended_reason := some "finished" }

/-- Completion check after a pointer advance, views.py lines 298-316: when
the new position does not resolve, the session is completed with reason
finished, otherwise it stays as it is. -/
def postAdvance (scn : Scenario) (session : Session) : Session :=
  match get_stage_and_question scn session.current_stage_index
      session.current_question_index with
  | (some _, some _) => session
  | _ => finishSession session

/-- Outcome of the submit_answer endpoint, tagged by the branch of
views.py that produced the response; created carries the scored delta of
the persisted Answer. -/
inductive SubmitResult where
  | badRequest
  | invalidState
  | conflict
  | noMoreQuestions
  | questionMismatch
  | optionNotFound
  | created (score_delta : Int)
deriving DecidableEq, Repr

/-- The submit_answer endpoint, views.py lines 160-327, acting on one
session state: required-field check, status precondition, duplicate guard,
position resolution, question match, scoring, Answer persistence, score and
wrong_count update, failure check (before any pointer movement), pointer
advance and completion check. -/
def submit_answer (scn : Scenario) (st : GState)
    (question_id selected_text : String) : GState × SubmitResult :=
  if question_id = "" then (st, SubmitResult.badRequest)
  else if st.session.status ≠ Status.in_progress then (st, SubmitResult.invalidState)
  else if st.answers.any (fun a => a.question_key = question_id) then
    (st, SubmitResult.conflict)
  else
    match get_stage_and_question scn st.session.current_stage_index
        st.session.current_question_index with
    | (some _, some q_obj) =>
      if q_obj.id ≠ question_id then (st, SubmitResult.questionMismatch)
      else
        match scoreSelected q_obj.options selected_text with
        | none => (st, SubmitResult.optionNotFound)
        | some score_delta =>
          if (applyScore st.session score_delta).wrong_limit ≤
              (applyScore st.session score_delta).wrong_count then
            (⟨failSession (applyScore st.session score_delta),
              st.answers ++
                [⟨question_id, selected_text, score_delta, decide (score_delta > 0)⟩]⟩,
             SubmitResult.created score_delta)
          else
            (⟨postAdvance scn (advance_pointer scn (applyScore st.session score_delta)),
              st.answers ++
                [⟨question_id, selected_text, score_delta, decide (score_delta > 0)⟩]⟩,
             SubmitResult.created score_delta)
    | _ => (⟨finishSession st.session, st.answers⟩, SubmitResult.noMoreQuestions)

/-- Outcome of the current_state endpoint, views.py lines 125-155. -/
inductive CurrentResult where
  | terminalSnapshot
  | finished
  | next (stage_obj : Stage) (question_obj : Question)
deriving DecidableEq, Repr

/-- The current_state endpoint, views.py lines 125-155: terminal sessions
get a plain snapshot; an in_progress session whose position does not resolve
is repaired to completed with reason finished; otherwise the due question is
returned and nothing changes. -/
def current_state (scn : Scenario) (st : GState) : GState × CurrentResult :=
  if st.session.status ≠ Status.in_progress then (st, CurrentResult.terminalSnapshot)
  else
    match get_stage_and_question scn st.session.current_stage_index
        st.session.current_question_index with
    | (some stage_obj, some q_obj) => (st, CurrentResult.next stage_obj q_obj)
    | _ => (⟨finishSession st.session, st.answers⟩, CurrentResult.finished)

/-- The quit_session endpoint, views.py lines 332-343: an in_progress
session becomes abandoned with reason user_quit; any other status is left
untouched. -/
def quit_session (st : GState) : GState :=
  if st.session.status = Status.in_progress then
    ⟨{ st.session with status := Status.abandoned, ended_reason := some "user_quit" },
     st.answers⟩
  else st

/-- Session-level operations of the engine. -/
inductive Op where
  | submit (question_id selected_text : String)
  | current
  | quit
deriving DecidableEq, Repr

/-- One operation applied to a session state. -/
def step (scn : Scenario) (st : GState) : Op → GState
  | Op.submit qid sel => (submit_answer scn st qid sel).1
  | Op.current => (current_state scn st).1
  | Op.quit => quit_session st

/-- A sequence of operations applied in order. -/
def run (scn : Scenario) (st : GState) : List Op → GState
  | [] => st
  | op :: ops => run scn (step scn st op) ops

/-- Fresh session as created by views.py start_or_resume line 98 with the
model defaults of models.py lines 24-42: position (0,0), status in_progress,
score 0, wrong_count 0, wrong_limit 5, empty advice. -/
def newSession (topic : String) : Session :=
  { topic := topic, current_stage_index := 0, current_question_index := 0,
    status := Status.in_progress, ended_reason := none, total_score := 0,
    wrong_count := 0, wrong_limit := 5, advice_summary := "" }

/-- Fresh session state with an empty Answer ledger. -/
def initState (topic : String) : GState :=
  { session := newSession topic, answers := [] }

/-- Concrete question q1 with options Yes (+5) and No (-5), as in the
worked examples of spec section 8. -/
def qOne : Question :=
  { id := "q1", text := "Ready?",
    options := [⟨"Yes", some 5⟩, ⟨"No", some (-5)⟩] }

/-- Concrete question q2 with options Yes (+5) and No (-5). -/
def qTwo : Question :=
  { id := "q2", text := "Backups?",
    options := [⟨"Yes", some 5⟩, ⟨"No", some (-5)⟩] }

/-- Stage holding only qOne. -/
def stageOne : Stage :=
  { stage := "prepare", time_limit_sec := 30, questions := [qOne] }

/-- Stage holding qOne then qTwo. -/
def stageTwo : Stage :=
  { stage := "prepare", time_limit_sec := 30, questions := [qOne, qTwo] }

/-- One-question scenario of spec section 8. -/
def scnOne : Scenario := { topic := "t", stages := [stageOne] }

/-- Two-question scenario: q1 then q2 in one stage. -/
def scnTwo : Scenario := { topic := "t", stages := [stageTwo] }

/-- Projection fact: failSession keeps wrong_count. -/
theorem failSession_wrong_count (s : Session) :
    (failSession s).wrong_count = s.wrong_count := rfl

/-- Projection fact: failSession keeps total_score. -/
theorem failSession_total_score (s : Session) :
    (failSession s).total_score = s.total_score := rfl

/-- Projection fact: finishSession keeps wrong_count. -/
theorem finishSession_wrong_count (s : Session) :
    (finishSession s).wrong_count = s.wrong_count := rfl

/-- Projection fact: finishSession keeps total_score. -/
theorem finishSession_total_score (s : Session) :
    (finishSession s).total_score = s.total_score := rfl

/-- Pointer advancing touches only the position indices: wrong_count is
kept. -/
theorem advance_pointer_wrong_count (scn : Scenario) (s : Session) :
    (advance_pointer scn s).wrong_count = s.wrong_count := by
  unfold advance_pointer
  split
  · split <;> rfl
  · rfl

/-- Pointer advancing keeps wrong_limit. -/
theorem advance_pointer_wrong_limit (scn : Scenario) (s : Session) :
    (advance_pointer scn s).wrong_limit = s.wrong_limit := by
  unfold advance_pointer
  split
  · split <;> rfl
  · rfl

/-- Pointer advancing keeps total_score. -/
theorem advance_pointer_total_score (scn : Scenario) (s : Session) :
    (advance_pointer scn s).total_score = s.total_score := by
  unfold advance_pointer
  split
  · split <;> rfl
  · rfl

/-- Completion check keeps wrong_count. -/
theorem postAdvance_wrong_count (scn : Scenario) (s : Session) :
    (postAdvance scn s).wrong_count = s.wrong_count := by
  unfold postAdvance
  split <;> rfl

/-- Completion check keeps wrong_limit. -/
theorem postAdvance_wrong_limit (scn : Scenario) (s : Session) :
    (postAdvance scn s).wrong_limit = s.wrong_limit := by
  unfold postAdvance
  split <;> rfl

/-- Completion check keeps total_score. -/
theorem postAdvance_total_score (scn : Scenario) (s : Session) :
    (postAdvance scn s).total_score = s.total_score := by
  unfold postAdvance
  split <;> rfl

/-- Score application keeps wrong_limit. -/
theorem applyScore_wrong_limit (s : Session) (d : Int) :
    (applyScore s d).wrong_limit = s.wrong_limit := rfl

/-- Score application keeps the position pointer. -/
theorem applyScore_stage_index (s : Session) (d : Int) :
    (applyScore s d).current_stage_index = s.current_stage_index := rfl

/-- Score application keeps the question index. -/
theorem applyScore_question_index (s : Session) (d : Int) :
    (applyScore s d).current_question_index = s.current_question_index := rfl

/-- Score application keeps advice_summary. -/
theorem applyScore_advice (s : Session) (d : Int) :
    (applyScore s d).advice_summary = s.advice_summary := rfl

/-- The scorer finds nothing when no option text equals the selected
text. -/
theorem scoreSelected_eq_none (options : List Opt) (sel : String)
    (h : ∀ o ∈ options, o.text ≠ sel) : scoreSelected options sel = none := by
  induction options with
  | nil => rfl
  | cons o os ih =>
    have ho := h o (List.mem_cons_self o os)
    simp only [scoreSelected, if_neg ho]
    exact ih fun o2 ho2 => h o2 (List.mem_cons_of_mem _ ho2)

/-- The scorer returns the score of the first option whose text equals the
selected text, with 0 for an absent score field. -/
theorem scoreSelected_first (pre rest : List Opt) (opt : Opt) (sel : String)
    (hsel : opt.text = sel) (hpre : ∀ o ∈ pre, o.text ≠ sel) :
    scoreSelected (pre ++ opt :: rest) sel = some (opt.score.getD 0) := by
  revert hpre
  induction pre with
  | nil =>
    intro _
    simp [scoreSelected, if_pos hsel]
  | cons o os ih =>
    intro hpre
    have ho := hpre o (List.mem_cons_self o os)
    simp only [List.cons_append, scoreSelected, if_neg ho]
    exact ih fun o2 ho2 => hpre o2 (List.mem_cons_of_mem _ ho2)

/-- Complete branch analysis of submit_answer: either the state is
returned untouched with a rejecting result, or the stale position is
repaired to completed, or the submission is accepted and the exact scored
state is produced. -/
theorem submit_cases (scn : Scenario) (st : GState) (qid sel : String) :
    ((submit_answer scn st qid sel).1 = st ∧
      (∀ d, (submit_answer scn st qid sel).2 ≠ SubmitResult.created d) ∧
      (submit_answer scn st qid sel).2 ≠ SubmitResult.noMoreQuestions)
    ∨ (submit_answer scn st qid sel
        = (⟨finishSession st.session, st.answers⟩, SubmitResult.noMoreQuestions))
    ∨ (∃ so q d,
        get_stage_and_question scn st.session.current_stage_index
            st.session.current_question_index = (some so, some q) ∧
        q.id = qid ∧ qid ≠ "" ∧ st.session.status = Status.in_progress ∧
        (st.answers.any fun a => a.question_key = qid) = false ∧
        scoreSelected q.options sel = some d ∧
        submit_answer scn st qid sel =
          (⟨(if (applyScore st.session d).wrong_limit ≤
                (applyScore st.session d).wrong_count
             then failSession (applyScore st.session d)
             else postAdvance scn (advance_pointer scn (applyScore st.session d))),
            st.answers ++ [⟨qid, sel, d, decide (d > 0)⟩]⟩,
           SubmitResult.created d)) := by
  rcases hr : submit_answer scn st qid sel with ⟨st1, res⟩
  unfold submit_answer at hr
  split at hr
  · injection hr with h1 h2
    subst h1; subst h2
    exact Or.inl ⟨rfl, fun d => by simp, by simp⟩
  · split at hr
    · injection hr with h1 h2
      subst h1; subst h2
      exact Or.inl ⟨rfl, fun d => by simp, by simp⟩
    · split at hr
      · injection hr with h1 h2
        subst h1; subst h2
        exact Or.inl ⟨rfl, fun d => by simp, by simp⟩
      · split at hr
        · split at hr
          · injection hr with h1 h2
            subst h1; subst h2
            exact Or.inl ⟨rfl, fun d => by simp, by simp⟩
          · split at hr
            · injection hr with h1 h2
              subst h1; subst h2
              exact Or.inl ⟨rfl, fun d => by simp, by simp⟩
            · split at hr
              · rename_i hq hs hdup x1 so q hgq hid x2 d hsc hw
                injection hr with h1 h2
                subst h1; subst h2
                refine Or.inr (Or.inr ⟨so, q, d, hgq, not_ne_iff.mp hid, hq,
                  not_ne_iff.mp hs, by simpa using hdup, hsc, ?_⟩)
                rw [if_pos hw]
              · rename_i hq hs hdup x1 so q hgq hid x2 d hsc hw
                injection hr with h1 h2
                subst h1; subst h2
                refine Or.inr (Or.inr ⟨so, q, d, hgq, not_ne_iff.mp hid, hq,
                  not_ne_iff.mp hs, by simpa using hdup, hsc, ?_⟩)
                rw [if_neg hw]
        · injection hr with h1 h2
          subst h1; subst h2
          exact Or.inr (Or.inl rfl)

/-- C9: for a position whose stage index is within the stage range, the
Pointer Advancer yields the same stage with the question index raised by
one when the raised index is still below the question count of that stage,
and otherwise the next stage at question index 0; it performs at most one
stage transition per call and so never skips a following zero-question
stage. -/
theorem advance_pointer_single_step (scn : Scenario) (session : Session)
    (h : session.current_stage_index < scn.stages.length) :
    (session.current_question_index + 1 <
        (scn.stages.get ⟨session.current_stage_index, h⟩).questions.length →
      advance_pointer scn session =
        { session with
            current_question_index := session.current_question_index + 1 }) ∧
    ((scn.stages.get ⟨session.current_stage_index, h⟩).questions.length ≤
        session.current_question_index + 1 →
      advance_pointer scn session =
        { session with
            current_stage_index := session.current_stage_index + 1,
            current_question_index := 0 }) := by
  have hget : scn.stages[session.current_stage_index]? =
      some (scn.stages.get ⟨session.current_stage_index, h⟩) := by
    rw [List.getElem?_eq_getElem h]
    simp
  constructor
  · intro hlt
    unfold advance_pointer
    rw [hget]
    dsimp only
    rw [if_neg (by omega)]
  · intro hge
    unfold advance_pointer
    rw [hget]
    dsimp only
    rw [if_pos hge]

/-- Witness for C9 on the two-question stage of scnTwo: from (0,0) the
advancer moves within the stage to (0,1), and from (0,1) it crosses to the
next stage at (1,0). -/
theorem advance_pointer_single_step_witness :
    advance_pointer scnTwo (newSession "t") =
      { newSession "t" with current_question_index := 1 } ∧
    advance_pointer scnTwo { newSession "t" with current_question_index := 1 } =
      { newSession "t" with
          current_stage_index := 1,
          current_question_index := 0 } := by
  constructor
  · exact (advance_pointer_single_step scnTwo (newSession "t") (by decide)).1
      (by decide)
  · exact (advance_pointer_single_step scnTwo
      { newSession "t" with current_question_index := 1 } (by decide)).2 (by decide)

/-- C10: when several options carry the same text label, scoring a
submission with that label uses the score of the first matching option in
list order, and an option whose score field is absent scores 0. -/
theorem scorer_first_match_duplicates (pre rest : List Opt) (opt : Opt)
    (sel : String) (hsel : opt.text = sel)
    (hpre : ∀ o ∈ pre, o.text ≠ sel) :
    scoreSelected (pre ++ opt :: rest) sel = some (opt.score.getD 0) ∧
    (opt.score = none → scoreSelected (pre ++ opt :: rest) sel = some 0) := by
  have h := scoreSelected_first pre rest opt sel hsel hpre
  exact ⟨h, fun hn => by rw [h, hn]; rfl⟩

/-- Witness for C10: two options labelled A, the first with an absent
score field, score as 0. -/
theorem scorer_first_match_duplicates_witness :
    scoreSelected [⟨"B", some 3⟩, ⟨"A", none⟩, ⟨"A", some 7⟩] "A" = some 0 :=
  (scorer_first_match_duplicates [⟨"B", some 3⟩] [⟨"A", some 7⟩] ⟨"A", none⟩ "A"
    rfl (by decide)).2 rfl

/-- C8: for an in_progress session with a due question, submitting a
selected text that equals no option text of that question is rejected with
optionNotFound and the state is returned untouched, so no Answer record,
score, wrong_count, position or status change happens. -/
theorem option_not_found_rejects (scn : Scenario) (st : GState)
    (qid sel : String) (so : Stage) (q : Question)
    (hq : qid ≠ "")
    (h1 : st.session.status = Status.in_progress)
    (h2 : ∀ a ∈ st.answers, a.question_key ≠ qid)
    (h3 : get_stage_and_question scn st.session.current_stage_index
            st.session.current_question_index = (some so, some q))
    (h4 : q.id = qid)
    (h5 : ∀ o ∈ q.options, o.text ≠ sel) :
    submit_answer scn st qid sel = (st, SubmitResult.optionNotFound) := by
  have hdup : (st.answers.any fun a => a.question_key = qid) = false := by
    simp only [List.any_eq_false, decide_eq_true_eq]
    exact h2
  have hsc := scoreSelected_eq_none q.options sel h5
  unfold submit_answer
  rw [if_neg hq, if_neg (by simp [h1]), if_neg (by simp [hdup]), h3]
  dsimp only
  rw [if_neg (by simp [h4]), hsc]

/-- Witness for C8: on the fresh one-question session, submitting the text
Maybe for q1 yields optionNotFound and the state is unchanged. -/
theorem option_not_found_rejects_witness :
    submit_answer scnOne (initState "t") "q1" "Maybe"
      = (initState "t", SubmitResult.optionNotFound) :=
  option_not_found_rejects scnOne (initState "t") "q1" "Maybe" stageOne qOne
    (by decide) rfl (by simp [initState]) rfl rfl (by decide)

/-- Counterexample to C6 as stated: on the two-question scenario, after q1
is answered the due question is q2, yet resubmitting the already answered
identifier q1, which differs from the due id, is rejected with conflict,
not with questionMismatch, because the duplicate guard of views.py line
199 runs before the match check of line 221. -/
theorem question_mismatch_counterexample :
    (submit_answer scnTwo (initState "t") "q1" "Yes").2 = SubmitResult.created 5 ∧
    ((submit_answer scnTwo (initState "t") "q1" "Yes").1).session.status
      = Status.in_progress ∧
    (get_stage_and_question scnTwo
        ((submit_answer scnTwo (initState "t") "q1" "Yes").1).session.current_stage_index
        ((submit_answer scnTwo (initState "t") "q1" "Yes").1).session.current_question_index).2
      = some qTwo ∧
    qTwo.id ≠ "q1" ∧
    (submit_answer scnTwo ((submit_answer scnTwo (initState "t") "q1" "Yes").1)
        "q1" "No").2 = SubmitResult.conflict ∧
    (submit_answer scnTwo ((submit_answer scnTwo (initState "t") "q1" "Yes").1)
        "q1" "No").2 ≠ SubmitResult.questionMismatch :=
  ⟨rfl, rfl, rfl, by decide, rfl, by decide⟩

/-- C6 amended: for an in_progress session where a question is due,
submitting a question id that differs from the due question id and for
which no Answer record exists yet is rejected with questionMismatch and the
state is returned untouched. -/
theorem question_mismatch_rejects (scn : Scenario) (st : GState)
    (qid sel : String) (so : Stage) (q : Question)
    (hq : qid ≠ "")
    (h1 : st.session.status = Status.in_progress)
    (h2 : ∀ a ∈ st.answers, a.question_key ≠ qid)
    (h3 : get_stage_and_question scn st.session.current_stage_index
            st.session.current_question_index = (some so, some q))
    (h4 : q.id ≠ qid) :
    submit_answer scn st qid sel = (st, SubmitResult.questionMismatch) := by
  have hdup : (st.answers.any fun a => a.question_key = qid) = false := by
    simp only [List.any_eq_false, decide_eq_true_eq]
    exact h2
  unfold submit_answer
  rw [if_neg hq, if_neg (by simp [h1]), if_neg (by simp [hdup]), h3]
  dsimp only
  rw [if_pos h4]

/-- Witness for the amended C6: on the fresh one-question session the due
id is q1, so submitting the unanswered id zzz yields questionMismatch with
the state unchanged. -/
theorem question_mismatch_rejects_witness :
    submit_answer scnOne (initState "t") "zzz" "Yes"
      = (initState "t", SubmitResult.questionMismatch) :=
  question_mismatch_rejects scnOne (initState "t") "zzz" "Yes" stageOne qOne
    (by decide) rfl (by simp [initState]) rfl (by decide)

/-- Duplicate guard: for an in_progress session, a non empty question id
already present in the Answer ledger is rejected with conflict and the
state is returned untouched. -/
theorem submit_conflict_of_mem (scn : Scenario) (st : GState)
    (qid sel : String)
    (hq : qid ≠ "") (hs : st.session.status = Status.in_progress)
    (hm : (st.answers.any fun a => a.question_key = qid) = true) :
    submit_answer scn st qid sel = (st, SubmitResult.conflict) := by
  unfold submit_answer
  rw [if_neg hq, if_neg (by simp [hs]), if_pos hm]

/-- A created result implies that the submitted id is non empty and now
appears in the Answer ledger of the new state. -/
theorem submit_created_key_mem (scn : Scenario) (st : GState)
    (qid sel : String) (d : Int)
    (h : (submit_answer scn st qid sel).2 = SubmitResult.created d) :
    qid ≠ "" ∧
    (((submit_answer scn st qid sel).1).answers.any
        fun a => a.question_key = qid) = true := by
  rcases submit_cases scn st qid sel with ⟨_, hno, _⟩ | heq |
    ⟨so, q, d2, _, _, hq, _, _, _, heq⟩
  · exact absurd h (hno d)
  · rw [heq] at h
    simp at h
  · refine ⟨hq, ?_⟩
    rw [heq]
    simp

/-- Counterexample to C3 as stated: on the one-question scenario the first
submission succeeds and completes the session, so the second submission of
the same id q1 is rejected with invalidState by the status precondition of
views.py line 192, not with conflict. -/
theorem duplicate_conflict_counterexample :
    (submit_answer scnOne (initState "t") "q1" "Yes").2 = SubmitResult.created 5 ∧
    (submit_answer scnOne ((submit_answer scnOne (initState "t") "q1" "Yes").1)
        "q1" "Yes").2 = SubmitResult.invalidState ∧
    (submit_answer scnOne ((submit_answer scnOne (initState "t") "q1" "Yes").1)
        "q1" "Yes").2 ≠ SubmitResult.conflict :=
  ⟨rfl, rfl, by decide⟩

/-- C3 amended: when a successful first submission leaves the session
in_progress, submitting the same question id again is rejected with
conflict and the state after the first submission is returned untouched, so
total_score, wrong_count, the position pointer and the status keep their
values and no second Answer record is created. -/
theorem duplicate_submit_conflict (scn : Scenario) (st : GState)
    (qid sel sel2 : String) (d : Int)
    (h1 : (submit_answer scn st qid sel).2 = SubmitResult.created d)
    (h2 : ((submit_answer scn st qid sel).1).session.status = Status.in_progress) :
    submit_answer scn ((submit_answer scn st qid sel).1) qid sel2
      = ((submit_answer scn st qid sel).1, SubmitResult.conflict) := by
  obtain ⟨hq, hm⟩ := submit_created_key_mem scn st qid sel d h1
  exact submit_conflict_of_mem scn _ qid sel2 hq h2 hm

/-- Witness for the amended C3: on the two-question scenario the first
submission of q1 succeeds and the session stays in_progress, so the second
submission of q1 yields conflict with the state unchanged. -/
theorem duplicate_submit_conflict_witness :
    submit_answer scnTwo ((submit_answer scnTwo (initState "t") "q1" "Yes").1)
        "q1" "No"
      = ((submit_answer scnTwo (initState "t") "q1" "Yes").1,
         SubmitResult.conflict) :=
  duplicate_submit_conflict scnTwo (initState "t") "q1" "Yes" "No" 5 rfl rfl

/-- C4: submit_answer on a session whose status is terminal (completed,
failed or abandoned) is rejected with invalidState and the state is
returned untouched, and no operation of the engine moves such a session at
all, so in particular none leaves a terminal status. -/
theorem terminal_state_frozen (scn : Scenario) (st : GState) (qid sel : String)
    (hq : qid ≠ "")
    (h : st.session.status = Status.completed ∨ st.session.status = Status.failed ∨
      st.session.status = Status.abandoned) :
    submit_answer scn st qid sel = (st, SubmitResult.invalidState) ∧
    ∀ op : Op, step scn st op = st := by
  have hne : st.session.status ≠ Status.in_progress := by
    rcases h with h | h | h <;> rw [h] <;> simp
  have hsub : ∀ q s : String, q ≠ "" →
      submit_answer scn st q s = (st, SubmitResult.invalidState) := by
    intro q s hq2
    unfold submit_answer
    rw [if_neg hq2, if_pos hne]
  refine ⟨hsub qid sel hq, ?_⟩
  intro op
  cases op with
  | submit q s =>
    by_cases hq2 : q = ""
    · show (submit_answer scn st q s).1 = st
      unfold submit_answer
      rw [if_pos hq2]
    · show (submit_answer scn st q s).1 = st
      rw [hsub q s hq2]
  | current =>
    show (current_state scn st).1 = st
    unfold current_state
    rw [if_pos hne]
  | quit =>
    show quit_session st = st
    unfold quit_session
    rw [if_neg hne]

/-- Completed session state used to witness C4. -/
def doneState : GState :=
  ⟨{ newSession "t" with status := Status.completed }, []⟩

/-- Witness for C4 on a completed session: submit_answer is rejected with
invalidState and the quit operation changes nothing. -/
theorem terminal_state_frozen_witness :
    submit_answer scnOne doneState "q1" "Yes"
      = (doneState, SubmitResult.invalidState) ∧
    step scnOne doneState Op.quit = doneState :=
  ⟨(terminal_state_frozen scnOne doneState "q1" "Yes" (by decide) (Or.inl rfl)).1,
   (terminal_state_frozen scnOne doneState "q1" "Yes" (by decide) (Or.inl rfl)).2
     Op.quit⟩

/-- C7: for an in_progress session, when the stored position resolves to a
due question the current operation returns it and leaves the whole state
unchanged; when no due question is resolvable the session is repaired to
status completed with ended_reason finished, the ledger untouched. -/
theorem current_state_repair (scn : Scenario) (st : GState)
    (h : st.session.status = Status.in_progress) :
    (∀ so q, get_stage_and_question scn st.session.current_stage_index
          st.session.current_question_index = (some so, some q) →
      current_state scn st = (st, CurrentResult.next so q)) ∧
    ((get_stage_and_question scn st.session.current_stage_index
          st.session.current_question_index).2 = none →
      (current_state scn st).1.session.status = Status.completed ∧
      (current_state scn st).1.session.ended_reason = some "finished" ∧
      (current_state scn st).1.answers = st.answers ∧
      (current_state scn st).2 = CurrentResult.finished) := by
  constructor
  · intro so q hgq
    unfold current_state
    rw [if_neg (by simp [h]), hgq]
  · intro hnone
    unfold current_state
    rw [if_neg (by simp [h])]
    rcases hgq : get_stage_and_question scn st.session.current_stage_index
        st.session.current_question_index with ⟨sopt, qopt⟩
    rw [hgq] at hnone
    simp only at hnone
    subst hnone
    cases sopt <;> exact ⟨rfl, rfl, rfl, rfl⟩

/-- Session state whose stored stage index lies past the end of scnOne,
used to witness the repair side of C7. -/
def staleState : GState :=
  ⟨{ newSession "t" with current_stage_index := 3 }, []⟩

/-- Witness for C7: the fresh session resolves q1 and is left unchanged by
current_state, while the stale position state is repaired to completed with
reason finished. -/
theorem current_state_repair_witness :
    current_state scnOne (initState "t")
      = (initState "t", CurrentResult.next stageOne qOne) ∧
    (current_state scnOne staleState).1.session.status = Status.completed ∧
    (current_state scnOne staleState).1.session.ended_reason = some "finished" :=
  ⟨(current_state_repair scnOne (initState "t") rfl).1 stageOne qOne rfl,
   ((current_state_repair scnOne staleState rfl).2 rfl).1,
   ((current_state_repair scnOne staleState rfl).2 rfl).2.1⟩

/-- C1: when a successful submission brings wrong_count to at least
wrong_limit, the session transitions to failed with ended_reason
too_many_wrongs, a default advice_summary is set if it was empty, and the
position pointer keeps the value it had before the submission. -/
theorem submit_fail_transition (scn : Scenario) (st : GState)
    (qid sel : String) (d : Int)
    (h0 : st.session.status = Status.in_progress)
    (h1 : (submit_answer scn st qid sel).2 = SubmitResult.created d)
    (h2 : st.session.wrong_limit ≤
      ((submit_answer scn st qid sel).1).session.wrong_count) :
    ((submit_answer scn st qid sel).1).session.status = Status.failed ∧
    ((submit_answer scn st qid sel).1).session.ended_reason
      = some "too_many_wrongs" ∧
    (st.session.advice_summary = "" →
      ((submit_answer scn st qid sel).1).session.advice_summary = defaultAdvice) ∧
    ((submit_answer scn st qid sel).1).session.current_stage_index
      = st.session.current_stage_index ∧
    ((submit_answer scn st qid sel).1).session.current_question_index
      = st.session.current_question_index := by
  rcases submit_cases scn st qid sel with ⟨_, hno, _⟩ | heq |
    ⟨so, q, d2, _, _, _, _, _, _, heq⟩
  · exact absurd h1 (hno d)
  · rw [heq] at h1
    simp at h1
  · rw [heq] at h2 ⊢
    by_cases hw : (applyScore st.session d2).wrong_limit ≤
        (applyScore st.session d2).wrong_count
    · simp only [if_pos hw]
      refine ⟨rfl, rfl, ?_, rfl, rfl⟩
      intro hadv
      show (if (applyScore st.session d2).advice_summary = ""
            then defaultAdvice else (applyScore st.session d2).advice_summary)
          = defaultAdvice
      rw [applyScore_advice, hadv]
      simp
    · exfalso
      simp only [if_neg hw] at h2
      rw [postAdvance_wrong_count, advance_pointer_wrong_count] at h2
      rw [applyScore_wrong_limit] at hw
      exact hw h2

/-- Session state with wrong_limit 1, as in the worked failure example of
spec section 8. -/
def lowLimitState : GState :=
  ⟨{ newSession "t" with wrong_limit := 1 }, []⟩

/-- Witness for C1: with wrong_limit 1, submitting No on q1 scores -5,
wrong_count reaches the limit, the session fails with too_many_wrongs, the
default advice is set, and the pointer stays at (0,0). -/
theorem submit_fail_transition_witness :
    ((submit_answer scnOne lowLimitState "q1" "No").1).session.status
      = Status.failed ∧
    ((submit_answer scnOne lowLimitState "q1" "No").1).session.ended_reason
      = some "too_many_wrongs" ∧
    ((submit_answer scnOne lowLimitState "q1" "No").1).session.advice_summary
      = defaultAdvice ∧
    ((submit_answer scnOne lowLimitState "q1" "No").1).session.current_stage_index
      = 0 ∧
    ((submit_answer scnOne lowLimitState "q1" "No").1).session.current_question_index
      = 0 := by
  have h := submit_fail_transition scnOne lowLimitState "q1" "No" (-5) rfl rfl
    (by decide)
  exact ⟨h.1, h.2.1, h.2.2.1 rfl, h.2.2.2.1, h.2.2.2.2⟩

/-- Branch analysis of current_state: the state is either returned
untouched or repaired to completed with the ledger untouched. -/
theorem current_state_fst (scn : Scenario) (st : GState) :
    (current_state scn st).1 = st ∨
    (current_state scn st).1 = ⟨finishSession st.session, st.answers⟩ := by
  rcases hr : current_state scn st with ⟨st1, r⟩
  unfold current_state at hr
  split at hr
  · injection hr with a b
    subst a
    exact Or.inl rfl
  · split at hr
    · injection hr with a b
      subst a
      exact Or.inl rfl
    · injection hr with a b
      subst a
      exact Or.inr rfl

/-- Quitting never touches wrong_count, total_score or the Answer
ledger. -/
theorem quit_session_preserves (st : GState) :
    (quit_session st).session.wrong_count = st.session.wrong_count ∧
    (quit_session st).session.total_score = st.session.total_score ∧
    (quit_session st).answers = st.answers := by
  unfold quit_session
  split <;> exact ⟨rfl, rfl, rfl⟩

/-- One engine operation preserves the two ledger invariants: wrong_count
counts the non positive deltas of the ledger and total_score sums its
deltas. -/
theorem step_preserves_ledger (scn : Scenario) (st : GState) (op : Op)
    (h1 : st.session.wrong_count =
      ((st.answers.filter fun a => a.score_delta ≤ 0).length : Int))
    (h2 : st.session.total_score = (st.answers.map AnswerRec.score_delta).sum) :
    (step scn st op).session.wrong_count =
      (((step scn st op).answers.filter fun a => a.score_delta ≤ 0).length : Int) ∧
    (step scn st op).session.total_score =
      ((step scn st op).answers.map AnswerRec.score_delta).sum := by
  cases op with
  | submit qid sel =>
    simp only [step]
    rcases submit_cases scn st qid sel with ⟨hst, _, _⟩ | heq |
      ⟨so, q, d, _, _, _, _, _, _, heq⟩
    · rw [hst]
      exact ⟨h1, h2⟩
    · rw [heq]
      refine ⟨?_, ?_⟩
      · show (finishSession st.session).wrong_count =
          ((st.answers.filter fun a => a.score_delta ≤ 0).length : Int)
        rw [finishSession_wrong_count]
        exact h1
      · show (finishSession st.session).total_score =
          (st.answers.map AnswerRec.score_delta).sum
        rw [finishSession_total_score]
        exact h2
    · rw [heq]
      dsimp only
      constructor
      · have hwc : (if (applyScore st.session d).wrong_limit ≤
              (applyScore st.session d).wrong_count
            then failSession (applyScore st.session d)
            else postAdvance scn
              (advance_pointer scn (applyScore st.session d))).wrong_count
            = (applyScore st.session d).wrong_count := by
          split
          · rw [failSession_wrong_count]
          · rw [postAdvance_wrong_count, advance_pointer_wrong_count]
        rw [hwc]
        simp only [applyScore, List.filter_append, List.length_append,
          List.filter_cons, List.filter_nil, decide_eq_true_eq]
        rw [h1]
        push_cast
        split_ifs with hd1 hd2 <;>
          simp only [List.length_cons, List.length_nil] <;> omega
      · have hts : (if (applyScore st.session d).wrong_limit ≤
              (applyScore st.session d).wrong_count
            then failSession (applyScore st.session d)
            else postAdvance scn
              (advance_pointer scn (applyScore st.session d))).total_score
            = (applyScore st.session d).total_score := by
          split
          · rw [failSession_total_score]
          · rw [postAdvance_total_score, advance_pointer_total_score]
        rw [hts]
        simp only [applyScore, List.map_append, List.sum_append, List.map_cons,
          List.map_nil, List.sum_cons, List.sum_nil]
        rw [h2]
        ring
  | current =>
    simp only [step]
    rcases current_state_fst scn st with hst | hst
    · rw [hst]
      exact ⟨h1, h2⟩
    · rw [hst]
      refine ⟨?_, ?_⟩
      · show (finishSession st.session).wrong_count =
          ((st.answers.filter fun a => a.score_delta ≤ 0).length : Int)
        rw [finishSession_wrong_count]
        exact h1
      · show (finishSession st.session).total_score =
          (st.answers.map AnswerRec.score_delta).sum
        rw [finishSession_total_score]
        exact h2
  | quit =>
    simp only [step]
    obtain ⟨e1, e2, e3⟩ := quit_session_preserves st
    rw [e1, e2, e3]
    exact ⟨h1, h2⟩

/-- Any operation sequence preserves the two ledger invariants. -/
theorem run_preserves_ledger (scn : Scenario) (ops : List Op) (st : GState)
    (h1 : st.session.wrong_count =
      ((st.answers.filter fun a => a.score_delta ≤ 0).length : Int))
    (h2 : st.session.total_score = (st.answers.map AnswerRec.score_delta).sum) :
    (run scn st ops).session.wrong_count =
      (((run scn st ops).answers.filter fun a => a.score_delta ≤ 0).length : Int) ∧
    (run scn st ops).session.total_score =
      ((run scn st ops).answers.map AnswerRec.score_delta).sum := by
  induction ops generalizing st with
  | nil => exact ⟨h1, h2⟩
  | cons op ops ih =>
    obtain ⟨g1, g2⟩ := step_preserves_ledger scn st op h1 h2
    exact ih (step scn st op) g1 g2

/-- C2: a successful submission increments wrong_count exactly when the
scored delta is non positive, and on every state reachable from a fresh
session wrong_count equals the number of persisted Answer records with a
non positive score delta. -/
theorem wrong_count_tracks_nonpositive :
    (∀ (scn : Scenario) (st : GState) (qid sel : String) (d : Int),
      (submit_answer scn st qid sel).2 = SubmitResult.created d →
      ((submit_answer scn st qid sel).1).session.wrong_count =
        (if d ≤ 0 then st.session.wrong_count + 1 else st.session.wrong_count)) ∧
    (∀ (scn : Scenario) (topic : String) (ops : List Op),
      (run scn (initState topic) ops).session.wrong_count =
        (((run scn (initState topic) ops).answers.filter
            fun a => a.score_delta ≤ 0).length : Int)) := by
  constructor
  · intro scn st qid sel d h
    rcases submit_cases scn st qid sel with ⟨_, hno, _⟩ | heq |
      ⟨so, q, d2, _, _, _, _, _, _, heq⟩
    · exact absurd h (hno d)
    · rw [heq] at h
      simp at h
    · rw [heq] at h
      dsimp only at h
      injection h with hd
      subst hd
      rw [heq]
      dsimp only
      have hwc : (if (applyScore st.session d2).wrong_limit ≤
            (applyScore st.session d2).wrong_count
          then failSession (applyScore st.session d2)
          else postAdvance scn
            (advance_pointer scn (applyScore st.session d2))).wrong_count
          = (applyScore st.session d2).wrong_count := by
        split
        · rw [failSession_wrong_count]
        · rw [postAdvance_wrong_count, advance_pointer_wrong_count]
      rw [hwc]
      simp only [applyScore]
      by_cases hd : d2 ≤ 0
      · rw [if_neg (show ¬(d2 > 0) by omega), if_pos hd]
      · rw [if_pos (show d2 > 0 by omega), if_neg hd]
  · intro scn topic ops
    exact (run_preserves_ledger scn ops (initState topic) rfl rfl).1

/-- Witness for C2: the wrong No answer on q1 raises wrong_count from 0 to
1, and after running that submission from a fresh session wrong_count
equals the count of non positive deltas in the ledger. -/
theorem wrong_count_tracks_nonpositive_witness :
    ((submit_answer scnOne (initState "t") "q1" "No").1).session.wrong_count = 1 ∧
    (run scnOne (initState "t") [Op.submit "q1" "No"]).session.wrong_count =
      (((run scnOne (initState "t") [Op.submit "q1" "No"]).answers.filter
          fun a => a.score_delta ≤ 0).length : Int) := by
  constructor
  · have h := wrong_count_tracks_nonpositive.1 scnOne (initState "t") "q1" "No"
      (-5) rfl
    rw [h]
    rfl
  · exact wrong_count_tracks_nonpositive.2 scnOne "t" [Op.submit "q1" "No"]

/-- C5: on every state reachable from a fresh session by any operation
sequence, total_score equals the sum of the score deltas of all persisted
Answer records of the session. -/
theorem total_score_is_sum (scn : Scenario) (topic : String) (ops : List Op) :
    (run scn (initState topic) ops).session.total_score =
      ((run scn (initState topic) ops).answers.map AnswerRec.score_delta).sum :=
  (run_preserves_ledger scn ops (initState topic) rfl rfl).2

end Gameplay
